import Mathlib

/-!
Verification development for the drive-through voice assistant
(src/agent.py and src/database.py): a shallow embedding of the menu
catalog, the order state, the ordering tools and the receipt compiler,
followed by theorems about the behaviour the specification describes.

Conventions of the embedding:
* Python `float` currency amounts are modelled as `Int`: every fixture
  price is a whole number of rupees and the source only ever adds
  prices, so the float arithmetic is exact integer arithmetic.
* Python `Optional[str]` is `Option String`; the truthiness tests that
  the source applies to strings (`if drink_size:`) are modelled by
  `truthy`, which is false exactly on `none` and `""`.
* Python dictionaries (insertion ordered) are association lists with
  `dictInsert` / `dictLookup`.
* Raising `ToolError` is modelled by returning `Except.error` carrying a
  structured `ToolErr`; `renderErr` reproduces the exact message string
  built at each raise site.
-/

/-- A catalog record, translated from `MenuItem` in src/database.py.
`size`, `voice_alias` are the optional fields; `category` keeps the
literal category strings of the source. -/
structure MenuItem where
  id : String
  name : String
  calories : Nat
  price : Int
  available : Bool
  size : Option String
  voice_alias : Option String
  category : String
deriving DecidableEq, Repr

/-- Python truthiness of an optional string: `None` and `""` are falsy. -/
def truthy : Option String → Bool
  | none => false
  | some s => s != ""

/-- Python `str.strip()`: drop whitespace from both ends. -/
def pyStrip (s : String) : String :=
  String.mk (((s.data.dropWhile Char.isWhitespace).reverse.dropWhile Char.isWhitespace).reverse)

/-- Insertion-ordered dictionary update (`d[k] = v` on a Python dict):
an existing key keeps its position, a new key is appended. -/
def dictInsert {α β : Type} [DecidableEq α] : List (α × β) → α → β → List (α × β)
  | [], k, v => [(k, v)]
  | p :: rest, k, v => if p.1 = k then (k, v) :: rest else p :: dictInsert rest k v

/-- Dictionary lookup on an association list. -/
def dictLookup {α β : Type} [DecidableEq α] : List (α × β) → α → Option β
  | [], _ => none
  | p :: rest, k => if p.1 = k then some p.2 else dictLookup rest k

/-- `find_items_by_id` from src/database.py: records matching the id
and, when a size is given, matching the size exactly. -/
def find_items_by_id (items : List MenuItem) (item_id : String) (size : Option String) :
    List MenuItem :=
  items.filter (fun item => decide (item.id = item_id ∧ (size = none ∨ item.size = size)))

/-- `map_by_sizes` from src/database.py: a dict from id to a dict from
size to record (built over the sized records in order), paired with the
sizeless leftovers.  `if item.size` in the source is string truthiness,
hence the `truthy` guards. -/
def map_by_sizes (items : List MenuItem) :
    List (String × List (String × MenuItem)) × List MenuItem :=
  let leftovers := items.filter (fun item => !(truthy item.size))
  let result := items.foldl
    (fun acc item =>
      match item.size with
      | none => acc
      | some s =>
        if s = "" then acc
        else dictInsert acc item.id (dictInsert ((dictLookup acc item.id).getD []) s item))
    []
  (result, leftovers)

/-- The drink fixtures of `FakeDB.list_drinks`, expanded to one record
per (id, size) pair in the source's iteration order (S, M, L), with the
sizeless bottled water last. -/
def FakeDB.list_drinks : List MenuItem :=
  [⟨"thums_up", "Thums Up®", 150, 40, true, some "S", none, "drink"⟩,
   ⟨"thums_up", "Thums Up®", 200, 50, true, some "M", none, "drink"⟩,
   ⟨"thums_up", "Thums Up®", 280, 60, true, some "L", none, "drink"⟩,
   ⟨"limca", "Limca®", 140, 40, true, some "S", none, "drink"⟩,
   ⟨"limca", "Limca®", 190, 50, true, some "M", none, "drink"⟩,
   ⟨"limca", "Limca®", 270, 60, true, some "L", none, "drink"⟩,
   ⟨"mango_lassi", "Mango Lassi", 250, 80, true, some "S", none, "drink"⟩,
   ⟨"mango_lassi", "Mango Lassi", 350, 110, true, some "M", none, "drink"⟩,
   ⟨"mango_lassi", "Mango Lassi", 480, 150, true, some "L", none, "drink"⟩,
   ⟨"sweet_lassi", "Sweet Lassi", 220, 70, true, some "S", none, "drink"⟩,
   ⟨"sweet_lassi", "Sweet Lassi", 310, 90, true, some "M", none, "drink"⟩,
   ⟨"sweet_lassi", "Sweet Lassi", 420, 130, true, some "L", none, "drink"⟩,
   ⟨"salted_lassi", "Salted Lassi", 150, 60, false, some "S", none, "drink"⟩,
   ⟨"salted_lassi", "Salted Lassi", 200, 80, false, some "M", none, "drink"⟩,
   ⟨"salted_lassi", "Salted Lassi", 280, 110, false, some "L", none, "drink"⟩,
   ⟨"masala_chai", "Masala Chai", 120, 30, true, some "S", none, "drink"⟩,
   ⟨"masala_chai", "Masala Chai", 180, 50, true, some "M", none, "drink"⟩,
   ⟨"masala_chai", "Masala Chai", 240, 70, true, some "L", none, "drink"⟩,
   ⟨"filter_coffee", "Filter Coffee", 100, 40, true, some "S", none, "drink"⟩,
   ⟨"filter_coffee", "Filter Coffee", 150, 60, true, some "M", none, "drink"⟩,
   ⟨"filter_coffee", "Filter Coffee", 200, 80, true, some "L", none, "drink"⟩,
   ⟨"nimbu_pani", "Fresh Nimbu Pani", 90, 40, true, some "S", none, "drink"⟩,
   ⟨"nimbu_pani", "Fresh Nimbu Pani", 140, 60, true, some "M", none, "drink"⟩,
   ⟨"nimbu_pani", "Fresh Nimbu Pani", 190, 80, true, some "L", none, "drink"⟩,
   ⟨"bottled_water", "Kinley® Mineral Water", 0, 20, true, none, none, "drink"⟩]

/-- The combo-meal fixtures of `FakeDB.list_combo_meals`. -/
def FakeDB.list_combo_meals : List MenuItem :=
  [⟨"combo_butter_chicken", "Butter Chicken Thali Combo", 1250, 350, true, none, some "1", "combo_meal"⟩,
   ⟨"combo_paneer_tikka_masala", "Paneer Tikka Masala Thali Combo", 1150, 320, true, none, some "2", "combo_meal"⟩,
   ⟨"combo_chole_bhature", "Chole Bhature Combo", 980, 220, true, none, some "3", "combo_meal"⟩,
   ⟨"combo_masala_dosa", "Masala Dosa Combo", 650, 180, true, none, some "4", "combo_meal"⟩,
   ⟨"combo_chicken_biryani", "Chicken Dum Biryani Combo", 1100, 340, true, none, some "5", "combo_meal"⟩,
   ⟨"combo_veg_biryani", "Veg Biryani Combo", 950, 280, true, none, some "6", "combo_meal"⟩,
   ⟨"combo_samosa_chaat", "Samosa Chaat & Chai Combo", 620, 150, true, none, some "7", "combo_meal"⟩,
   ⟨"combo_pav_bhaji", "Mumbai Pav Bhaji Combo", 850, 190, true, none, some "8", "combo_meal"⟩]

/-- The kid\x27s-meal fixtures of `FakeDB.list_happy_meals`. -/
def FakeDB.list_happy_meals : List MenuItem :=
  [⟨"kids_mini_dosa", "Mini Cheese Dosa Kid\x27s Meal", 400, 140, true, none, none, "happy_meal"⟩,
   ⟨"kids_butter_paneer", "Kid\x27s Butter Paneer & Rice Meal", 550, 180, true, none, none, "happy_meal"⟩,
   ⟨"kids_sweet_pulao", "Kid\x27s Sweet Pulao Meal", 450, 150, true, none, none, "happy_meal"⟩]

/-- The regular-item fixtures of `FakeDB.list_regulars` (all sizeless). -/
def FakeDB.list_regulars : List MenuItem :=
  [⟨"samosa_2pc", "Punjabi Samosa (2 pc)", 520, 60, true, none, none, "regular"⟩,
   ⟨"vada_pav", "Vada Pav", 300, 40, true, none, none, "regular"⟩,
   ⟨"butter_naan", "Butter Naan", 280, 50, true, none, none, "regular"⟩,
   ⟨"garlic_naan", "Garlic Naan", 300, 60, true, none, none, "regular"⟩,
   ⟨"tandoori_roti", "Tandoori Roti", 180, 30, true, none, none, "regular"⟩,
   ⟨"chicken_tikka_app", "Chicken Tikka (6 pc)", 450, 240, true, none, none, "regular"⟩,
   ⟨"paneer_tikka_app", "Paneer Tikka (6 pc)", 550, 220, true, none, none, "regular"⟩,
   ⟨"gulab_jamun", "Gulab Jamun (2 pc)", 350, 70, true, none, none, "regular"⟩,
   ⟨"rasmalai", "Rasmalai (2 pc)", 400, 90, true, none, none, "regular"⟩,
   ⟨"gajar_halwa", "Gajar Ka Halwa", 450, 110, true, none, none, "regular"⟩]

/-- The sauce/extra fixtures of `FakeDB.list_sauces`. -/
def FakeDB.list_sauces : List MenuItem :=
  [⟨"mint_chutney", "Mint Coriander Chutney", 25, 15, true, none, none, "sauce"⟩,
   ⟨"tamarind_chutney", "Sweet Tamarind Chutney", 60, 15, true, none, none, "sauce"⟩,
   ⟨"garlic_chutney", "Spicy Garlic Chutney", 40, 15, true, none, none, "sauce"⟩,
   ⟨"boondi_raita", "Boondi Raita", 120, 40, true, none, none, "sauce"⟩,
   ⟨"mixed_pickle", "Mixed Pickle (Achar)", 50, 10, true, none, none, "sauce"⟩,
   ⟨"onion_salad", "Lachha Onion Salad", 30, 20, true, none, none, "sauce"⟩]

/-- Modelled from the spec: the order line-item variants of the
repository's `order.py` (`OrderedRegular`, `OrderedCombo`,
`OrderedHappy`), a file that is not present under src/.  One case per
placed category; each carries the session-unique `order_id`. -/
inductive OrderItem where
  | regular (order_id : String) (item_id : String) (size : Option String)
  | combo (order_id : String) (meal_id : String) (drink_id : String)
      (drink_size : Option String) (sauce_id : Option String)
  | happy (order_id : String) (meal_id : String) (drink_id : String)
      (drink_size : Option String) (sauce_id : Option String)
deriving DecidableEq, Repr

/-- The `order_id` carried by a line item. -/
def OrderItem.order_id : OrderItem → String
  | .regular oid _ _ => oid
  | .combo oid _ _ _ _ => oid
  | .happy oid _ _ _ _ => oid

/-- Replace the `order_id` of a line item (used by `OrderState.add`). -/
def OrderItem.withOrderId : OrderItem → String → OrderItem
  | .regular _ i s, oid => .regular oid i s
  | .combo _ m d ds sc, oid => .combo oid m d ds sc
  | .happy _ m d ds sc, oid => .happy oid m d ds sc

/-- The `drink_size` of a combo/happy line item (`none` for a regular item). -/
def OrderItem.drink_size : OrderItem → Option String
  | .regular _ _ _ => none
  | .combo _ _ _ ds _ => ds
  | .happy _ _ _ ds _ => ds

/-- Modelled from the spec: `OrderState` of the repository's missing
`order.py` — a mapping from `order_id` to line item (insertion ordered),
created empty.  The id-generation scheme is internal to `order.py` and
only required to be session-unique; a monotonic counter is used here. -/
structure OrderState where
  items : List (String × OrderItem)
  next_id : Nat
deriving DecidableEq, Repr

/-- Modelled from the spec: `OrderState.add` assigns a fresh
session-unique `order_id` to the given item, inserts it, and returns the
stored item with the id populated. -/
def OrderState.add (st : OrderState) (item : OrderItem) : OrderItem × OrderState :=
  let oid := "order_" ++ toString st.next_id
  let stored := item.withOrderId oid
  (stored, ⟨st.items ++ [(oid, stored)], st.next_id + 1⟩)

/-- Modelled from the spec: `OrderState.remove` deletes and returns the
item for the given `order_id`, and signals NotFound (here `none`) when
no such id exists. -/
def OrderState.remove (st : OrderState) (oid : String) : Option (OrderItem × OrderState) :=
  match dictLookup st.items oid with
  | none => none
  | some it => some (it, ⟨st.items.filter (fun p => p.1 != oid), st.next_id⟩)

/-- The per-session aggregate `Userdata` from src/agent.py. -/
structure Userdata where
  order : OrderState
  drink_items : List MenuItem
  combo_items : List MenuItem
  happy_items : List MenuItem
  regular_items : List MenuItem
  sauce_items : List MenuItem
deriving DecidableEq, Repr

/-- One entry of the receipt document built by `update_receipt_file`. -/
structure ReceiptItem where
  order_id : String
  name : String
  sub_items : List String
  price : Int
deriving DecidableEq, Repr

/-- The receipt document written by `update_receipt_file`. -/
structure ReceiptDoc where
  items : List ReceiptItem
  total_price : Int
deriving DecidableEq, Repr

/-- The shared combo/happy branch of `update_receipt_file` in
src/agent.py: resolve the meal by id, then the optional drink by
(id, size) with an id-only fallback, then the optional sauce by id; each
resolution failure contributes nothing. -/
def comboEntry (all_menu_items : List MenuItem) (oid meal_id drink_id : String)
    (drink_size sauce_id : Option String) : ReceiptItem :=
  let base :=
    match find_items_by_id all_menu_items meal_id none with
    | [] => ("", (0 : Int))
    | mi :: _ => (mi.name, mi.price)
  let drink :=
    if drink_id != "" then
      let d0 := find_items_by_id all_menu_items drink_id drink_size
      let dm := if d0 = [] then find_items_by_id all_menu_items drink_id none else d0
      match dm with
      | [] => (([] : List String), (0 : Int))
      | d :: _ =>
        let sp := if truthy drink_size then "(" ++ drink_size.getD "" ++ ")" else ""
        ([pyStrip ("+ " ++ d.name ++ " " ++ sp)], d.price)
    else ([], 0)
  let sauce :=
    if truthy sauce_id then
      match find_items_by_id all_menu_items (sauce_id.getD "") none with
      | [] => (([] : List String), (0 : Int))
      | s :: _ => (["+ " ++ s.name], s.price)
    else ([], 0)
  ⟨oid, base.1, drink.1 ++ sauce.1, base.2 + drink.2 + sauce.2⟩

/-- The per-line-item body of `update_receipt_file` in src/agent.py. -/
def receipt_entry (all_menu_items : List MenuItem) (item : OrderItem) : ReceiptItem :=
  match item with
  | .regular oid item_id size =>
    let m0 := find_items_by_id all_menu_items item_id size
    let m1 := if m0 = [] then find_items_by_id all_menu_items item_id none else m0
    match m1 with
    | [] => ⟨oid, "", [], 0⟩
    | mi :: _ =>
      let sp := if truthy size then "(" ++ size.getD "" ++ ")" else ""
      ⟨oid, pyStrip (mi.name ++ " " ++ sp), [], 0 + mi.price⟩
  | .combo oid meal_id drink_id drink_size sauce_id =>
    comboEntry all_menu_items oid meal_id drink_id drink_size sauce_id
  | .happy oid meal_id drink_id drink_size sauce_id =>
    comboEntry all_menu_items oid meal_id drink_id drink_size sauce_id

/-- `update_receipt_file` from src/agent.py: join every order line item
against the concatenated menu, accumulating the entry list and the
running `total_price` exactly as the source loop does.  The resulting
document is what the source serializes to the receipt file. -/
def update_receipt_file (userdata : Userdata) : ReceiptDoc :=
  let all_menu_items := userdata.combo_items ++ userdata.happy_items ++
    userdata.regular_items ++ userdata.drink_items ++ userdata.sauce_items
  let r := userdata.order.items.foldl
    (fun acc p =>
      let e := receipt_entry all_menu_items p.2
      (acc.1 ++ [e], acc.2 + e.price))
    (([] : List ReceiptItem), (0 : Int))
  ⟨r.1, r.2⟩

/-- The structured form of the `ToolError`s raised in src/agent.py, one
constructor per raise site, carrying the data interpolated into the
message (`renderErr` rebuilds the exact message string).
`removeNotFound` is modelled from the spec: it is the NotFound signalled
by `OrderState.remove` of the missing `order.py` when a removal fails
mid-loop. -/
inductive ToolErr where
  | mealNotFound (meal_id : String)
  | drinkNotFound (drink_id : String)
  | ambiguousSize (id : String) (sizes : List String)
  | sizeNotApplicable (id : String)
  | sauceNotFound (sauce_id : String)
  | itemNotFound (item_id : String)
  | unknownSize (size : String) (item_id : String) (sizes : List String)
  | orderIdsNotFound (order_ids : List String)
  | removeNotFound (order_id : String)
deriving DecidableEq, Repr

/-- The exact message string each raise site of src/agent.py builds
(`removeNotFound` has no message in src; its text is modelled from the
spec's NotFound condition for `OrderState.remove`). -/
def renderErr : ToolErr → String
  | .mealNotFound meal_id => "error: the meal " ++ meal_id ++ " was not found"
  | .drinkNotFound drink_id => "error: the drink " ++ drink_id ++ " was not found"
  | .ambiguousSize id sizes =>
    "error: " ++ id ++ " comes with multiple sizes: " ++ String.intercalate ", " sizes ++
      ". Please clarify which size should be selected."
  | .sizeNotApplicable id =>
    "error: size should not be specified for item " ++ id ++
      " as it does not support sizing options."
  | .sauceNotFound sauce_id => "error: the sauce " ++ sauce_id ++ " was not found"
  | .itemNotFound item_id => "error: " ++ item_id ++ " was not found."
  | .unknownSize size item_id sizes =>
    "error: unknown size " ++ size ++ " for " ++ item_id ++ ". Available sizes: " ++
      String.intercalate ", " sizes ++ "."
  | .orderIdsNotFound order_ids =>
    "error: no item(s) found with order_id(s): " ++ String.intercalate ", " order_ids
  | .removeNotFound order_id => "error: order_id " ++ order_id ++ " was not found"

/-- First-occurrence deduplication, modelling `list({...})` over the
size strings (the Python set's iteration order is unspecified; this
embedding fixes first-occurrence order, and no theorem depends on the
order beyond membership and cardinality). -/
def listSet (l : List String) : List String :=
  l.foldl (fun acc s => if s ∈ acc then acc else acc ++ [s]) []

/-- `available_sizes = list({item.size for item in drink_sizes if item.size})`
from the three ordering tools. -/
def availableSizes (items : List MenuItem) : List String :=
  listSet (items.filterMap (fun item => if truthy item.size then item.size else none))

/-- The observable outcome of one tool call: the returned value or the
raised error, the userdata afterwards, and the receipt documents written
during the call (in order). -/
structure ToolOutcome (α : Type) where
  result : Except ToolErr α
  userdata : Userdata
  writes : List ReceiptDoc

/-- `order_combo_meal` from src/agent.py: validate the meal, the drink,
the normalized drink size (ambiguity, applicability, silent reset of a
mismatched size) and the sauce, then add one Combo line item and write
the receipt once. -/
def order_combo_meal (u : Userdata) (meal_id drink_id : String)
    (drink_size : Option String) (sauce_id : Option String) : ToolOutcome OrderItem :=
  if find_items_by_id u.combo_items meal_id none = [] then
    ⟨.error (.mealNotFound meal_id), u, []⟩
  else
    let drink_sizes := find_items_by_id u.drink_items drink_id none
    if drink_sizes = [] then ⟨.error (.drinkNotFound drink_id), u, []⟩
    else
      let drink_size1 := if drink_size = some "null" then none else drink_size
      let sauce_id1 := if sauce_id = some "null" then none else sauce_id
      let available_sizes := availableSizes drink_sizes
      if drink_size1 = none ∧ 1 < available_sizes.length then
        ⟨.error (.ambiguousSize drink_id available_sizes), u, []⟩
      else if drink_size1 ≠ none ∧ available_sizes = [] then
        ⟨.error (.sizeNotApplicable drink_id), u, []⟩
      else
        let drink_size2 :=
          if truthy drink_size1 ∧ ¬ drink_size1.getD "" ∈ available_sizes then none
          else drink_size1
        if truthy sauce_id1 ∧ find_items_by_id u.sauce_items (sauce_id1.getD "") none = [] then
          ⟨.error (.sauceNotFound (sauce_id1.getD "")), u, []⟩
        else
          let added := u.order.add (.combo "" meal_id drink_id drink_size2 sauce_id1)
          let u1 := { u with order := added.2 }
          ⟨.ok added.1, u1, [update_receipt_file u1]⟩

/-- `order_happy_meal` from src/agent.py: same shape as the combo tool
except that a present drink size on a sizeless drink is silently reset
instead of raising, and there is no reset line for a size that is
missing from a sized drink's variants (the source has no such line). -/
def order_happy_meal (u : Userdata) (meal_id drink_id : String)
    (drink_size : Option String) (sauce_id : Option String) : ToolOutcome OrderItem :=
  if find_items_by_id u.happy_items meal_id none = [] then
    ⟨.error (.mealNotFound meal_id), u, []⟩
  else
    let drink_sizes := find_items_by_id u.drink_items drink_id none
    if drink_sizes = [] then ⟨.error (.drinkNotFound drink_id), u, []⟩
    else
      let drink_size1 := if drink_size = some "null" then none else drink_size
      let sauce_id1 := if sauce_id = some "null" then none else sauce_id
      let available_sizes := availableSizes drink_sizes
      if drink_size1 = none ∧ 1 < available_sizes.length then
        ⟨.error (.ambiguousSize drink_id available_sizes), u, []⟩
      else
        let drink_size2 := if drink_size1 ≠ none ∧ available_sizes = [] then none else drink_size1
        if truthy sauce_id1 ∧ find_items_by_id u.sauce_items (sauce_id1.getD "") none = [] then
          ⟨.error (.sauceNotFound (sauce_id1.getD "")), u, []⟩
        else
          let added := u.order.add (.happy "" meal_id drink_id drink_size2 sauce_id1)
          let u1 := { u with order := added.2 }
          ⟨.ok added.1, u1, [update_receipt_file u1]⟩

/-- `order_regular_item` from src/agent.py: look the item up in the
union of the regular, drink and sauce catalogs, validate the normalized
size (ambiguity, silent reset on a sizeless item, hard UnknownSize on a
mismatch), then add one Regular line item and write the receipt once. -/
def order_regular_item (u : Userdata) (item_id : String) (size : Option String) :
    ToolOutcome OrderItem :=
  let all_items := u.regular_items ++ u.drink_items ++ u.sauce_items
  let item_sizes := find_items_by_id all_items item_id none
  if item_sizes = [] then ⟨.error (.itemNotFound item_id), u, []⟩
  else
    let size1 := if size = some "null" then none else size
    let available_sizes := availableSizes item_sizes
    if size1 = none ∧ 1 < available_sizes.length then
      ⟨.error (.ambiguousSize item_id available_sizes), u, []⟩
    else
      let size2 := if size1 ≠ none ∧ available_sizes = [] then none else size1
      if (truthy size2 ∧ available_sizes ≠ []) ∧ ¬ size2.getD "" ∈ available_sizes then
        ⟨.error (.unknownSize (size2.getD "") item_id available_sizes), u, []⟩
      else
        let added := u.order.add (.regular "" item_id size2)
        let u1 := { u with order := added.2 }
        ⟨.ok added.1, u1, [update_receipt_file u1]⟩

/-- The list comprehension `[await order.remove(oid) for oid in order_id]`
of `remove_order_item`: remove the ids left to right, stopping with the
state reached so far when `OrderState.remove` signals NotFound
(modelled from the spec, since `order.py` is not under src/). -/
def removeAll : OrderState → List String → Except (OrderState × String) (List OrderItem × OrderState)
  | st, [] => .ok ([], st)
  | st, oid :: rest =>
    match st.remove oid with
    | none => .error (st, oid)
    | some (it, st1) =>
      match removeAll st1 rest with
      | .error e => .error e
      | .ok (its, st2) => .ok (it :: its, st2)

/-- `remove_order_item` from src/agent.py: collect the ids missing from
the order; if any, raise NotFound listing all of them and change
nothing; otherwise remove each id in order and write the receipt once. -/
def remove_order_item (u : Userdata) (order_id : List String) : ToolOutcome (List OrderItem) :=
  let not_found := order_id.filter (fun oid => (dictLookup u.order.items oid).isNone)
  if not_found ≠ [] then ⟨.error (.orderIdsNotFound not_found), u, []⟩
  else
    match removeAll u.order order_id with
    | .error e => ⟨.error (.removeNotFound e.2), { u with order := e.1 }, []⟩
    | .ok (removed, st1) =>
      let u1 := { u with order := st1 }
      ⟨.ok removed, u1, [update_receipt_file u1]⟩

/-- The initial per-session userdata built by `new_userdata` in
src/agent.py: the five catalog fixtures and an empty order. -/
def new_userdata : Userdata :=
  ⟨⟨[], 0⟩, FakeDB.list_drinks, FakeDB.list_combo_meals, FakeDB.list_happy_meals,
    FakeDB.list_regulars, FakeDB.list_sauces⟩

/-- The catalog ids a receipt line resolves: the item id of a regular
line, and the meal, drink and (when present) sauce ids of a combo or
happy line. -/
def OrderItem.lookup_ids : OrderItem → List String
  | .regular _ item_id _ => [item_id]
  | .combo _ meal_id drink_id _ sauce_id =>
    [meal_id, drink_id] ++ (match sauce_id with | some s => [s] | none => [])
  | .happy _ meal_id drink_id _ sauce_id =>
    [meal_id, drink_id] ++ (match sauce_id with | some s => [s] | none => [])

/-- Whether a tool result is the AmbiguousSize error. -/
def isAmbiguousErr {α : Type} : Except ToolErr α → Bool
  | .error (.ambiguousSize _ _) => true
  | _ => false

/-- The (id, size) invariant of the catalog, from the spec's data model:
records of one id either all lack a size (and there is exactly one such
record) or all carry one of the size strings, and the pair (id, size) is
unique; sizes are never the empty string. -/
def catalog_invariant (items : List MenuItem) : Prop :=
  items.Pairwise (fun a b => a.id = b.id → a.size ≠ b.size) ∧
  (∀ a ∈ items, ∀ b ∈ items, a.id = b.id → (a.size = none ↔ b.size = none)) ∧
  (∀ a ∈ items, a.size ≠ some "")

/-- The all-or-nothing contract of one ordering tool call against the
userdata it started from: an error leaves the userdata untouched and
writes nothing; a success grows the order by exactly one line item and
performs exactly one receipt write, of the new state's receipt. -/
def AllOrNothing (u : Userdata) (o : ToolOutcome OrderItem) : Prop :=
  (∀ e, o.result = .error e → o.userdata = u ∧ o.writes = []) ∧
  (∀ it, o.result = .ok it → o.userdata.order.items.length = u.order.items.length + 1 ∧
    o.writes = [update_receipt_file o.userdata])

/-- Decidable equality of `Except` results, by case analysis. -/
instance {α β : Type} [DecidableEq α] [DecidableEq β] : DecidableEq (Except α β) := by
  intro a b
  cases a with
  | error ea =>
    cases b with
    | error eb => exact decidable_of_iff (ea = eb) (by simp)
    | ok vb => exact isFalse (by simp)
  | ok va =>
    cases b with
    | error eb => exact isFalse (by simp)
    | ok vb => exact decidable_of_iff (va = vb) (by simp)

theorem dictLookup_dictInsert_self {α β : Type} [DecidableEq α]
    (m : List (α × β)) (k : α) (v : β) : dictLookup (dictInsert m k v) k = some v := by
  induction m with
  | nil => simp [dictInsert, dictLookup]
  | cons p rest ih =>
    by_cases h : p.1 = k
    · simp [dictInsert, dictLookup, h]
    · simp [dictInsert, dictLookup, h, ih]

theorem dictLookup_dictInsert_ne {α β : Type} [DecidableEq α]
    (m : List (α × β)) (k k' : α) (v : β) (h : k' ≠ k) :
    dictLookup (dictInsert m k v) k' = dictLookup m k' := by
  have h1 : ¬ k = k' := fun hh => h hh.symm
  induction m with
  | nil => simp [dictInsert, dictLookup, h1]
  | cons p rest ih =>
    by_cases hp : p.1 = k
    · have h2 : ¬ p.1 = k' := fun hh => h (hh.symm.trans hp)
      simp [dictInsert, hp, dictLookup, h1, h2]
    · simp only [dictInsert, if_neg hp]
      by_cases hp' : p.1 = k'
      · simp [dictLookup, hp']
      · simp [dictLookup, hp', ih]

theorem mem_keys_dictInsert {α β : Type} [DecidableEq α]
    (m : List (α × β)) (k : α) (v : β) (x : α) :
    x ∈ (dictInsert m k v).map Prod.fst ↔ x = k ∨ x ∈ m.map Prod.fst := by
  induction m with
  | nil => simp [dictInsert]
  | cons p rest ih =>
    by_cases hp : p.1 = k
    · subst hp
      have hins : dictInsert (p :: rest) p.1 v = (p.1, v) :: rest := by
        simp [dictInsert]
      rw [hins]
      simp only [List.map_cons, List.mem_cons]
      tauto
    · simp only [dictInsert, if_neg hp, List.map_cons, List.mem_cons, ih]
      tauto

theorem dictLookup_filter_self (items : List (String × OrderItem)) (oid : String) :
    dictLookup (items.filter (fun p => p.1 != oid)) oid = none := by
  induction items with
  | nil => rfl
  | cons p rest ih =>
    by_cases h : p.1 = oid
    · simp [List.filter_cons, h, ih]
    · simp [List.filter_cons, h, dictLookup, ih]

theorem dictLookup_filter_ne (items : List (String × OrderItem)) (oid x : String)
    (h : x ≠ oid) :
    dictLookup (items.filter (fun p => p.1 != oid)) x = dictLookup items x := by
  have h3 : ¬ oid = x := fun hh => h hh.symm
  induction items with
  | nil => rfl
  | cons p rest ih =>
    by_cases hp : p.1 = oid
    · simp [List.filter_cons, hp, dictLookup, h3, ih]
    · by_cases hp' : p.1 = x
      · simp [List.filter_cons, hp, dictLookup, hp', h]
      · simp [List.filter_cons, hp, dictLookup, hp', ih]

theorem dictLookup_filter_none (items : List (String × OrderItem))
    (q : String × OrderItem → Bool) (x : String) (h : dictLookup items x = none) :
    dictLookup (items.filter q) x = none := by
  induction items with
  | nil => rfl
  | cons p rest ih =>
    by_cases hp : p.1 = x
    · simp [dictLookup, hp] at h
    · have h' : dictLookup rest x = none := by simpa [dictLookup, hp] using h
      by_cases hq : q p
      · simp [List.filter_cons, hq, dictLookup, hp, ih h']
      · simp [List.filter_cons, hq, ih h']

theorem removeAll_ok (ids : List String) : ∀ st : OrderState,
    (∀ oid ∈ ids, dictLookup st.items oid ≠ none) → ids.Nodup →
    ∃ removed st2, removeAll st ids = .ok (removed, st2) ∧
      (∀ oid ∈ ids, dictLookup st2.items oid = none) ∧
      (∀ x, x ∉ ids → dictLookup st2.items x = dictLookup st.items x) := by
  induction ids with
  | nil =>
    intro st _ _
    exact ⟨[], st, rfl, by simp, fun x _ => rfl⟩
  | cons oid rest ih =>
    intro st hall hnd
    obtain ⟨it, hit⟩ : ∃ it, dictLookup st.items oid = some it := by
      cases hlk : dictLookup st.items oid with
      | none => exact absurd hlk (hall oid (by simp))
      | some it => exact ⟨it, rfl⟩
    have hoid_rest : oid ∉ rest := (List.nodup_cons.mp hnd).1
    have hnd_rest : rest.Nodup := (List.nodup_cons.mp hnd).2
    set st1 : OrderState := ⟨st.items.filter (fun p => p.1 != oid), st.next_id⟩ with hst1
    have hall1 : ∀ o ∈ rest, dictLookup st1.items o ≠ none := by
      intro o ho
      have hne : o ≠ oid := fun h => hoid_rest (h ▸ ho)
      rw [hst1]
      simpa [dictLookup_filter_ne st.items oid o hne] using hall o (by simp [ho])
    obtain ⟨removed, st2, hr, hnone, hpres⟩ := ih st1 hall1 hnd_rest
    refine ⟨it :: removed, st2, ?_, ?_, ?_⟩
    · simp [removeAll, OrderState.remove, hit, hr, hst1]
    · intro o ho
      rcases List.mem_cons.mp ho with h | h
      · subst h
        rw [hpres o hoid_rest, hst1]
        exact dictLookup_filter_self st.items o
      · exact hnone o h
    · intro x hx
      have hx1 : x ≠ oid := fun h => hx (by simp [h])
      have hx2 : x ∉ rest := fun h => hx (by simp [h])
      rw [hpres x hx2, hst1]
      exact dictLookup_filter_ne st.items oid x hx1

theorem find_size_nil (items : List MenuItem) (id : String) (size : Option String)
    (h : find_items_by_id items id none = []) : find_items_by_id items id size = [] := by
  unfold find_items_by_id at h ⊢
  rw [List.filter_eq_nil_iff] at h ⊢
  intro a ha
  have h2 := h a ha
  simp only [decide_eq_true_eq] at h2 ⊢
  have h3 : ¬ a.id = id := by
    intro hh
    exact h2 ⟨hh, by simp⟩
  exact fun hc => h3 hc.1

theorem receipt_foldl (all : List MenuItem) (l : List (String × OrderItem)) :
    ∀ acc : List ReceiptItem × Int,
    l.foldl (fun acc p =>
        let e := receipt_entry all p.2
        (acc.1 ++ [e], acc.2 + e.price)) acc =
      (acc.1 ++ l.map (fun p => receipt_entry all p.2),
       acc.2 + (l.map (fun p => (receipt_entry all p.2).price)).sum) := by
  induction l with
  | nil => simp
  | cons p rest ih =>
    intro acc
    simp only [List.foldl_cons, List.map_cons, List.sum_cons, ih]
    rw [Prod.mk.injEq]
    constructor
    · simp
    · ring

theorem mbs_keys (items : List MenuItem) (id s : String) :
    (s ∈ ((dictLookup (map_by_sizes items).1 id).getD []).map Prod.fst) ↔
      ∃ r ∈ items, r.id = id ∧ r.size = some s ∧ s ≠ "" := by
  have main : ∀ (l : List MenuItem) (acc : List (String × List (String × MenuItem))),
      (s ∈ ((dictLookup (l.foldl
        (fun acc item =>
          match item.size with
          | none => acc
          | some s =>
            if s = "" then acc
            else dictInsert acc item.id (dictInsert ((dictLookup acc item.id).getD []) s item))
        acc) id).getD []).map Prod.fst) ↔
        (s ∈ ((dictLookup acc id).getD []).map Prod.fst ∨
          ∃ r ∈ l, r.id = id ∧ r.size = some s ∧ s ≠ "") := by
    intro l
    induction l with
    | nil => intro acc; simp
    | cons item rest ih =>
      intro acc
      simp only [List.foldl_cons]
      rw [ih]
      rcases hsz : item.size with _ | s0
      · simp only [hsz]
        constructor
        · rintro (h | ⟨r, hr, h1, h2, h3⟩)
          · exact Or.inl h
          · exact Or.inr ⟨r, List.mem_cons_of_mem _ hr, h1, h2, h3⟩
        · rintro (h | ⟨r, hr, h1, h2, h3⟩)
          · exact Or.inl h
          · rcases List.mem_cons.mp hr with h4 | h4
            · rw [h4, hsz] at h2
              cases h2
            · exact Or.inr ⟨r, h4, h1, h2, h3⟩
      · simp only [hsz]
        by_cases h0 : s0 = ""
        · rw [if_pos h0]
          constructor
          · rintro (h | ⟨r, hr, h1, h2, h3⟩)
            · exact Or.inl h
            · exact Or.inr ⟨r, List.mem_cons_of_mem _ hr, h1, h2, h3⟩
          · rintro (h | ⟨r, hr, h1, h2, h3⟩)
            · exact Or.inl h
            · rcases List.mem_cons.mp hr with h4 | h4
              · rw [h4, hsz] at h2
                injection h2 with h5
                exact absurd (h5.symm.trans h0) h3
              · exact Or.inr ⟨r, h4, h1, h2, h3⟩
        · rw [if_neg h0]
          by_cases hid : item.id = id
          · rw [hid, dictLookup_dictInsert_self]
            simp only [Option.getD_some]
            rw [mem_keys_dictInsert]
            constructor
            · rintro ((h | h) | ⟨r, hr, h1, h2, h3⟩)
              · refine Or.inr ⟨item, List.mem_cons_self _ _, hid, ?_, ?_⟩
                · rw [hsz, h]
                · rw [h]
                  exact h0
              · exact Or.inl h
              · exact Or.inr ⟨r, List.mem_cons_of_mem _ hr, h1, h2, h3⟩
            · rintro (h | ⟨r, hr, h1, h2, h3⟩)
              · exact Or.inl (Or.inr h)
              · rcases List.mem_cons.mp hr with h4 | h4
                · rw [h4, hsz] at h2
                  injection h2 with h5
                  exact Or.inl (Or.inl h5.symm)
                · exact Or.inr ⟨r, h4, h1, h2, h3⟩
          · rw [dictLookup_dictInsert_ne _ _ _ _ (fun hh => hid hh.symm)]
            constructor
            · rintro (h | ⟨r, hr, h1, h2, h3⟩)
              · exact Or.inl h
              · exact Or.inr ⟨r, List.mem_cons_of_mem _ hr, h1, h2, h3⟩
            · rintro (h | ⟨r, hr, h1, h2, h3⟩)
              · exact Or.inl h
              · rcases List.mem_cons.mp hr with h4 | h4
                · exact absurd (h4 ▸ h1) hid
                · exact Or.inr ⟨r, h4, h1, h2, h3⟩
  have hfin := main items []
  simpa [dictLookup] using hfin

/-- A two-line order (ids "A" and "B") used to exercise removal. -/
def uC2 : Userdata :=
  { new_userdata with
    order := ⟨[("A", .regular "A" "vada_pav" none), ("B", .regular "B" "samosa_2pc" none)], 2⟩ }

/-- C1: starting from an empty order, a successful `order_combo_meal`
with meal `combo_butter_chicken`, drink `thums_up`, size M and sauce
`mint_chutney` writes a receipt document with exactly one entry named
"Butter Chicken Thali Combo", sub-items "+ Thums Up® (M)" and
"+ Mint Coriander Chutney", price 415 and total_price 415 = 350+50+15. -/
theorem combo_butter_chicken_end_to_end :
    (order_combo_meal new_userdata "combo_butter_chicken" "thums_up" (some "M")
      (some "mint_chutney")).writes =
      [⟨[⟨"order_0", "Butter Chicken Thali Combo",
          ["+ Thums Up® (M)", "+ Mint Coriander Chutney"], 415⟩], 415⟩] ∧
    (415 : Int) = 350 + 50 + 15 := by
  decide

/-- C2 counterexample: in an order holding ids "A" and "B", removing
["A", "A", "B"] is a call in which every listed id is present in the
order, yet afterwards "B" is still present (the claim as stated promises
every listed item is removed whenever all listed ids are present): the
duplicated "A" makes the second `OrderState.remove` fail after the first
already mutated the order, so the loop never reaches "B". -/
theorem remove_order_item_counterexample :
    (∀ oid ∈ ["A", "A", "B"], dictLookup uC2.order.items oid ≠ none) ∧
    (remove_order_item uC2 ["A", "A", "B"]).result = .error (.removeNotFound "A") ∧
    ¬ (∀ oid ∈ ["A", "A", "B"],
        dictLookup (remove_order_item uC2 ["A", "A", "B"]).userdata.order.items oid = none) := by
  decide

/-- C2 (amended): `remove_order_item` validates every id against the
order before mutating: if some listed id is missing, it fails with
NotFound carrying exactly the missing ids and leaves the userdata
untouched with no receipt write; if all listed ids are present **and the
list has no duplicate ids**, it succeeds, removes every listed item,
leaves the lookup of every other id unchanged, and writes the receipt
exactly once. -/
theorem remove_order_item_atomic (u : Userdata) (ids : List String) :
    ((∃ m ∈ ids, dictLookup u.order.items m = none) →
      remove_order_item u ids =
        ⟨.error (.orderIdsNotFound
          (ids.filter (fun oid => (dictLookup u.order.items oid).isNone))), u, []⟩) ∧
    ((∀ oid ∈ ids, dictLookup u.order.items oid ≠ none) → ids.Nodup →
      ∃ removed st2,
        remove_order_item u ids =
          ⟨.ok removed, { u with order := st2 },
            [update_receipt_file { u with order := st2 }]⟩ ∧
        (∀ oid ∈ ids, dictLookup st2.items oid = none) ∧
        (∀ x, x ∉ ids → dictLookup st2.items x = dictLookup u.order.items x)) := by
  constructor
  · rintro ⟨m, hm, hmn⟩
    have hne : ids.filter (fun oid => (dictLookup u.order.items oid).isNone) ≠ [] := by
      apply List.ne_nil_of_mem
      exact List.mem_filter.mpr ⟨hm, by simp [hmn]⟩
    simp only [remove_order_item]
    rw [if_pos hne]
  · intro hall hnd
    have hnf : ids.filter (fun oid => (dictLookup u.order.items oid).isNone) = [] := by
      rw [List.filter_eq_nil_iff]
      intro a ha
      simp only [Option.isNone_iff_eq_none]
      exact hall a ha
    obtain ⟨removed, st2, hr, h1, h2⟩ := removeAll_ok ids u.order hall hnd
    refine ⟨removed, st2, ?_, h1, h2⟩
    simp only [remove_order_item]
    rw [if_neg (by rw [hnf]; exact fun h => h rfl), hr]

/-- Witness for `remove_order_item_atomic`: a missing id "Z" makes the
call fail and change nothing, and removing the present id "A" from the
two-line order succeeds and removes it. -/
theorem remove_order_item_atomic_witness :
    remove_order_item new_userdata ["Z"] =
      ⟨.error (.orderIdsNotFound (["Z"].filter
        (fun oid => (dictLookup new_userdata.order.items oid).isNone))), new_userdata, []⟩ ∧
    (∃ removed st2,
      remove_order_item uC2 ["A"] =
        ⟨.ok removed, { uC2 with order := st2 },
          [update_receipt_file { uC2 with order := st2 }]⟩ ∧
      (∀ oid ∈ ["A"], dictLookup st2.items oid = none) ∧
      (∀ x, x ∉ ["A"] → dictLookup st2.items x = dictLookup uC2.order.items x)) :=
  ⟨(remove_order_item_atomic new_userdata ["Z"]).1 ⟨"Z", by decide, by decide⟩,
   (remove_order_item_atomic uC2 ["A"]).2 (by decide) (by decide)⟩

/-- C9: on a catalog satisfying the (id, size) invariant, for an id that
occurs with size variants, `find_items_by_id` with no size returns one
record per distinct size (all sized, sizes pairwise distinct), and the
set of sizes returned is exactly the key set `map_by_sizes` produces for
that id. -/
theorem find_by_id_group_sizes (items : List MenuItem) (id : String)
    (hinv : catalog_invariant items)
    (hsized : ∃ a ∈ items, a.id = id ∧ a.size ≠ none) :
    ((find_items_by_id items id none).map (fun r => r.size)).Nodup ∧
    (∀ r ∈ find_items_by_id items id none, r.size ≠ none) ∧
    (∀ s, (∃ r ∈ find_items_by_id items id none, r.size = some s) ↔
      s ∈ ((dictLookup (map_by_sizes items).1 id).getD []).map Prod.fst) := by
  obtain ⟨pw, homog, nempty⟩ := hinv
  have hmem : ∀ r ∈ find_items_by_id items id none, r ∈ items ∧ r.id = id := by
    intro r hr
    unfold find_items_by_id at hr
    rw [List.mem_filter] at hr
    refine ⟨hr.1, ?_⟩
    have h2 := hr.2
    simp only [decide_eq_true_eq] at h2
    exact h2.1
  refine ⟨?_, ?_, ?_⟩
  · have hsub : (find_items_by_id items id none).Sublist items := by
      unfold find_items_by_id
      exact List.filter_sublist _
    have pw2 := List.Pairwise.sublist hsub pw
    show ((find_items_by_id items id none).map (fun r => r.size)).Pairwise (fun a b => a ≠ b)
    rw [List.pairwise_map]
    exact List.Pairwise.imp_of_mem
      (fun ha hb hR => hR ((hmem _ ha).2.trans (hmem _ hb).2.symm)) pw2
  · intro r hr hnone
    obtain ⟨hri, hrid⟩ := hmem r hr
    obtain ⟨a, ha, haid, hasz⟩ := hsized
    exact hasz ((homog a ha r hri (haid.trans hrid.symm)).mpr hnone)
  · intro s
    rw [mbs_keys]
    constructor
    · rintro ⟨r, hr, hs⟩
      obtain ⟨hri, hrid⟩ := hmem r hr
      refine ⟨r, hri, hrid, hs, ?_⟩
      intro h
      exact nempty r hri (by rw [hs, h])
    · rintro ⟨r, hri, hrid, hs, _⟩
      refine ⟨r, ?_, hs⟩
      unfold find_items_by_id
      rw [List.mem_filter]
      exact ⟨hri, by simp [hrid]⟩

/-- Witness for `find_by_id_group_sizes`: the drink fixtures satisfy the
invariant and `thums_up` occurs sized, so the agreement holds there. -/
theorem find_by_id_group_sizes_witness :
    ((find_items_by_id FakeDB.list_drinks "thums_up" none).map (fun r => r.size)).Nodup ∧
    (∀ r ∈ find_items_by_id FakeDB.list_drinks "thums_up" none, r.size ≠ none) ∧
    (∀ s, (∃ r ∈ find_items_by_id FakeDB.list_drinks "thums_up" none, r.size = some s) ↔
      s ∈ ((dictLookup (map_by_sizes FakeDB.list_drinks).1 "thums_up").getD []).map Prod.fst) :=
  find_by_id_group_sizes FakeDB.list_drinks "thums_up"
    ⟨by decide, by decide, by decide⟩ ⟨⟨"thums_up", "Thums Up®", 150, 40, true, some "S",
      none, "drink"⟩, by decide, by decide, by decide⟩

/-- A userdata whose drink catalog holds one drink sold in size S only,
used to exercise a mismatched drink size on the kid\x27s-meal tool. -/
def uC3 : Userdata :=
  { new_userdata with
    drink_items := [⟨"soda", "Soda", 100, 30, true, some "S", none, "drink"⟩] }

/-- A userdata whose combo and kid\x27s-meal catalogs share one meal id,
so the combo and happy tools can be called on identical inputs. -/
def uC4 : Userdata :=
  { new_userdata with
    combo_items := [⟨"shared_meal", "Shared Meal", 500, 100, true, none, none, "combo_meal"⟩],
    happy_items := [⟨"shared_meal", "Shared Meal", 500, 100, true, none, none, "happy_meal"⟩] }

/-- C3 counterexample: with a drink sold only in size S, ordering a
kid\x27s meal with drink size M (a size the drink does not offer) succeeds,
but the added Happy line item still carries drink_size M — the source of
`order_happy_meal` has no reset line for a mismatched size on a sized
drink, so the size is kept, not discarded as the claim states. -/
theorem happy_meal_size_kept_counterexample :
    availableSizes (find_items_by_id uC3.drink_items "soda" none) = ["S"] ∧
    ¬ "M" ∈ availableSizes (find_items_by_id uC3.drink_items "soda" none) ∧
    (order_happy_meal uC3 "kids_mini_dosa" "soda" (some "M") none).result =
      .ok (OrderItem.happy "order_0" "kids_mini_dosa" "soda" (some "M") none) := by
  decide

/-- C3 (amended): when the normalized drink_size is present, the drink
has at least one size variant and the size is not among them,
`order_happy_meal` succeeds without raising UnknownSize, but it keeps
the mismatched size unchanged on the added Happy line item (it does not
clear it). -/
theorem happy_meal_mismatched_size_kept (u : Userdata) (meal_id drink_id s : String)
    (sauce_id : Option String)
    (hm : find_items_by_id u.happy_items meal_id none ≠ [])
    (hd : find_items_by_id u.drink_items drink_id none ≠ [])
    (hs : s ≠ "null")
    (ha : availableSizes (find_items_by_id u.drink_items drink_id none) ≠ [])
    (hnot : ¬ s ∈ availableSizes (find_items_by_id u.drink_items drink_id none))
    (hsauce : ¬ (truthy (if sauce_id = some "null" then none else sauce_id) = true ∧
      find_items_by_id u.sauce_items
        ((if sauce_id = some "null" then none else sauce_id).getD "") none = [])) :
    (order_happy_meal u meal_id drink_id (some s) sauce_id).result =
      .ok (OrderItem.happy ("order_" ++ toString u.order.next_id) meal_id drink_id (some s)
        (if sauce_id = some "null" then none else sauce_id)) := by
  simp only [order_happy_meal]
  rw [if_neg hm, if_neg hd]
  have h1 : (if (some s : Option String) = some "null" then none else some s) = some s := by
    simp [hs]
  simp only [h1]
  rw [if_neg (fun hc => Option.noConfusion (hc.1 : (some s : Option String) = none))]
  have h2 : (if (some s : Option String) ≠ none ∧
      availableSizes (find_items_by_id u.drink_items drink_id none) = [] then none
      else some s) = some s := if_neg (fun hc => ha hc.2)
  simp only [h2]
  rw [if_neg hsauce]
  rfl

/-- Witness for `happy_meal_mismatched_size_kept` at the single-size
drink catalog. -/
theorem happy_meal_mismatched_size_kept_witness :
    (order_happy_meal uC3 "kids_mini_dosa" "soda" (some "M") none).result =
      .ok (OrderItem.happy ("order_" ++ toString uC3.order.next_id) "kids_mini_dosa" "soda"
        (some "M") (if (none : Option String) = some "null" then none else none)) :=
  happy_meal_mismatched_size_kept uC3 "kids_mini_dosa" "soda" "M" none
    (by decide) (by decide) (by decide) (by decide) (by decide) (by decide)

/-- C4: when a normalized drink size is supplied for a drink with no
size variants, `order_combo_meal` fails with SizeNotApplicable (before
any mutation or write), while `order_happy_meal` on the identical inputs
succeeds with the drink size silently reset to absent on the added item. -/
theorem sizeless_drink_combo_vs_happy (u : Userdata) (meal_id drink_id s : String)
    (sauce_id : Option String)
    (hmc : find_items_by_id u.combo_items meal_id none ≠ [])
    (hmh : find_items_by_id u.happy_items meal_id none ≠ [])
    (hd : find_items_by_id u.drink_items drink_id none ≠ [])
    (hs : s ≠ "null")
    (ha : availableSizes (find_items_by_id u.drink_items drink_id none) = [])
    (hsauce : ¬ (truthy (if sauce_id = some "null" then none else sauce_id) = true ∧
      find_items_by_id u.sauce_items
        ((if sauce_id = some "null" then none else sauce_id).getD "") none = [])) :
    order_combo_meal u meal_id drink_id (some s) sauce_id =
      ⟨.error (.sizeNotApplicable drink_id), u, []⟩ ∧
    (order_happy_meal u meal_id drink_id (some s) sauce_id).result =
      .ok (OrderItem.happy ("order_" ++ toString u.order.next_id) meal_id drink_id none
        (if sauce_id = some "null" then none else sauce_id)) := by
  have h1 : (if (some s : Option String) = some "null" then none else some s) = some s := by
    simp [hs]
  constructor
  · simp only [order_combo_meal]
    rw [if_neg hmc, if_neg hd]
    simp only [h1]
    rw [if_neg (fun hc => Option.noConfusion (hc.1 : (some s : Option String) = none))]
    rw [if_pos ⟨fun hc => Option.noConfusion hc, ha⟩]
  · simp only [order_happy_meal]
    rw [if_neg hmh, if_neg hd]
    simp only [h1]
    rw [if_neg (fun hc => Option.noConfusion (hc.1 : (some s : Option String) = none))]
    have h2 : (if (some s : Option String) ≠ none ∧
        availableSizes (find_items_by_id u.drink_items drink_id none) = [] then none
        else some s) = none := if_pos ⟨fun hc => Option.noConfusion hc, ha⟩
    simp only [h2]
    rw [if_neg hsauce]
    rfl

/-- Witness for `sizeless_drink_combo_vs_happy`: the shared meal with the
sizeless bottled water and an explicit size L. -/
theorem sizeless_drink_combo_vs_happy_witness :
    order_combo_meal uC4 "shared_meal" "bottled_water" (some "L") none =
      ⟨.error (.sizeNotApplicable "bottled_water"), uC4, []⟩ ∧
    (order_happy_meal uC4 "shared_meal" "bottled_water" (some "L") none).result =
      .ok (OrderItem.happy ("order_" ++ toString uC4.order.next_id) "shared_meal"
        "bottled_water" none (if (none : Option String) = some "null" then none else none)) :=
  sizeless_drink_combo_vs_happy uC4 "shared_meal" "bottled_water" "L" none
    (by decide) (by decide) (by decide) (by decide) (by decide) (by decide)

/-- C5: in each of the three ordering tools, an absent (or "null")
normalized size together with more than one distinct size variant fails
with AmbiguousSize carrying the available sizes, and with at most one
distinct size variant no AmbiguousSize error is ever raised. -/
theorem ambiguous_size_policy (u : Userdata) (meal_id drink_id item_id : String)
    (dsz sz sauce_id : Option String) :
    ((find_items_by_id u.combo_items meal_id none ≠ [] →
      find_items_by_id u.drink_items drink_id none ≠ [] →
      (dsz = none ∨ dsz = some "null") →
      1 < (availableSizes (find_items_by_id u.drink_items drink_id none)).length →
      order_combo_meal u meal_id drink_id dsz sauce_id =
        ⟨.error (.ambiguousSize drink_id
          (availableSizes (find_items_by_id u.drink_items drink_id none))), u, []⟩) ∧
     ((availableSizes (find_items_by_id u.drink_items drink_id none)).length ≤ 1 →
      isAmbiguousErr (order_combo_meal u meal_id drink_id dsz sauce_id).result = false)) ∧
    ((find_items_by_id u.happy_items meal_id none ≠ [] →
      find_items_by_id u.drink_items drink_id none ≠ [] →
      (dsz = none ∨ dsz = some "null") →
      1 < (availableSizes (find_items_by_id u.drink_items drink_id none)).length →
      order_happy_meal u meal_id drink_id dsz sauce_id =
        ⟨.error (.ambiguousSize drink_id
          (availableSizes (find_items_by_id u.drink_items drink_id none))), u, []⟩) ∧
     ((availableSizes (find_items_by_id u.drink_items drink_id none)).length ≤ 1 →
      isAmbiguousErr (order_happy_meal u meal_id drink_id dsz sauce_id).result = false)) ∧
    ((find_items_by_id (u.regular_items ++ u.drink_items ++ u.sauce_items) item_id none ≠ [] →
      (sz = none ∨ sz = some "null") →
      1 < (availableSizes (find_items_by_id
        (u.regular_items ++ u.drink_items ++ u.sauce_items) item_id none)).length →
      order_regular_item u item_id sz =
        ⟨.error (.ambiguousSize item_id
          (availableSizes (find_items_by_id
            (u.regular_items ++ u.drink_items ++ u.sauce_items) item_id none))), u, []⟩) ∧
     ((availableSizes (find_items_by_id
        (u.regular_items ++ u.drink_items ++ u.sauce_items) item_id none)).length ≤ 1 →
      isAmbiguousErr (order_regular_item u item_id sz).result = false)) := by
  refine ⟨⟨?_, ?_⟩, ⟨?_, ?_⟩, ⟨?_, ?_⟩⟩
  · intro hm hd hdn hgt
    simp only [order_combo_meal]
    rw [if_neg hm, if_neg hd]
    have h1 : (if dsz = some "null" then none else dsz) = none := by
      rcases hdn with rfl | rfl <;> simp
    simp only [h1]
    split
    next => rfl
    next hcon => exact absurd ⟨by simp, hgt⟩ hcon
  · intro hle
    simp only [order_combo_meal]
    repeat' split
    all_goals first
    | rfl
    | (rename_i hcond; exact absurd hcond.2 (by omega))
  · intro hm hd hdn hgt
    simp only [order_happy_meal]
    rw [if_neg hm, if_neg hd]
    have h1 : (if dsz = some "null" then none else dsz) = none := by
      rcases hdn with rfl | rfl <;> simp
    simp only [h1]
    split
    next => rfl
    next hcon => exact absurd ⟨by simp, hgt⟩ hcon
  · intro hle
    simp only [order_happy_meal]
    repeat' split
    all_goals first
    | rfl
    | (rename_i hcond; exact absurd hcond.2 (by omega))
  · intro hfound hdn hgt
    simp only [order_regular_item]
    rw [if_neg hfound]
    have h1 : (if sz = some "null" then none else sz) = none := by
      rcases hdn with rfl | rfl <;> simp
    simp only [h1]
    split
    next => rfl
    next hcon => exact absurd ⟨by simp, hgt⟩ hcon
  · intro hle
    simp only [order_regular_item]
    repeat' split
    all_goals first
    | rfl
    | (rename_i hcond; exact absurd hcond.2 (by omega))

/-- Witness for `ambiguous_size_policy`: `combo_butter_chicken` with
`thums_up` and no size is ambiguous over S, M, L, and a one-variant item
(`vada_pav`) never yields AmbiguousSize. -/
theorem ambiguous_size_policy_witness :
    order_combo_meal new_userdata "combo_butter_chicken" "thums_up" none none =
      ⟨.error (.ambiguousSize "thums_up"
        (availableSizes (find_items_by_id new_userdata.drink_items "thums_up" none))),
        new_userdata, []⟩ ∧
    availableSizes (find_items_by_id new_userdata.drink_items "thums_up" none) = ["S", "M", "L"] ∧
    isAmbiguousErr (order_regular_item new_userdata "vada_pav" none).result = false :=
  ⟨(ambiguous_size_policy new_userdata "combo_butter_chicken" "thums_up" "vada_pav"
      none none none).1.1 (by decide) (by decide) (Or.inl rfl) (by decide),
   by decide,
   (ambiguous_size_policy new_userdata "combo_butter_chicken" "thums_up" "vada_pav"
      none none none).2.2.2 (by decide)⟩

/-- C6: `order_regular_item` on an item present in the union catalog,
with a present normalized size, at least one size variant, and a size
not among the variants, fails with UnknownSize listing the valid sizes
and adds nothing. -/
theorem regular_unknown_size (u : Userdata) (item_id s : String)
    (hfound : find_items_by_id (u.regular_items ++ u.drink_items ++ u.sauce_items)
      item_id none ≠ [])
    (hs1 : s ≠ "null") (hs2 : s ≠ "")
    (ha : availableSizes (find_items_by_id
      (u.regular_items ++ u.drink_items ++ u.sauce_items) item_id none) ≠ [])
    (hnot : ¬ s ∈ availableSizes (find_items_by_id
      (u.regular_items ++ u.drink_items ++ u.sauce_items) item_id none)) :
    order_regular_item u item_id (some s) =
      ⟨.error (.unknownSize s item_id
        (availableSizes (find_items_by_id
          (u.regular_items ++ u.drink_items ++ u.sauce_items) item_id none))), u, []⟩ := by
  simp only [order_regular_item]
  rw [if_neg hfound]
  have h1 : (if (some s : Option String) = some "null" then none else some s) = some s := by
    simp [hs1]
  simp only [h1]
  rw [if_neg (fun hc => Option.noConfusion (hc.1 : (some s : Option String) = none))]
  have h2 : (if (some s : Option String) ≠ none ∧
      availableSizes (find_items_by_id
        (u.regular_items ++ u.drink_items ++ u.sauce_items) item_id none) = [] then none
      else some s) = some s := if_neg (fun hc => ha hc.2)
  simp only [h2]
  have ht : truthy (some s) = true := by simp [truthy, hs2]
  rw [if_pos ⟨⟨ht, ha⟩, hnot⟩]
  rfl

/-- Witness for `regular_unknown_size`: `thums_up` ordered with size "X"
fails with UnknownSize over S, M, L. -/
theorem regular_unknown_size_witness :
    order_regular_item new_userdata "thums_up" (some "X") =
      ⟨.error (.unknownSize "X" "thums_up"
        (availableSizes (find_items_by_id
          (new_userdata.regular_items ++ new_userdata.drink_items ++ new_userdata.sauce_items)
          "thums_up" none))), new_userdata, []⟩ :=
  regular_unknown_size new_userdata "thums_up" "X"
    (by decide) (by decide) (by decide) (by decide) (by decide)

theorem combo_shape (u : Userdata) (meal_id drink_id : String) (dsz sauce_id : Option String) :
    (∃ e, order_combo_meal u meal_id drink_id dsz sauce_id = ⟨.error e, u, []⟩) ∨
    (∃ it u1, order_combo_meal u meal_id drink_id dsz sauce_id =
        ⟨.ok it, u1, [update_receipt_file u1]⟩ ∧
      u1.order.items.length = u.order.items.length + 1) := by
  simp only [order_combo_meal]
  repeat' split
  all_goals first
  | exact Or.inl ⟨_, rfl⟩
  | exact Or.inr ⟨_, _, rfl, by simp [OrderState.add]⟩

theorem happy_shape (u : Userdata) (meal_id drink_id : String) (dsz sauce_id : Option String) :
    (∃ e, order_happy_meal u meal_id drink_id dsz sauce_id = ⟨.error e, u, []⟩) ∨
    (∃ it u1, order_happy_meal u meal_id drink_id dsz sauce_id =
        ⟨.ok it, u1, [update_receipt_file u1]⟩ ∧
      u1.order.items.length = u.order.items.length + 1) := by
  simp only [order_happy_meal]
  repeat' split
  all_goals first
  | exact Or.inl ⟨_, rfl⟩
  | exact Or.inr ⟨_, _, rfl, by simp [OrderState.add]⟩

theorem regular_shape (u : Userdata) (item_id : String) (sz : Option String) :
    (∃ e, order_regular_item u item_id sz = ⟨.error e, u, []⟩) ∨
    (∃ it u1, order_regular_item u item_id sz = ⟨.ok it, u1, [update_receipt_file u1]⟩ ∧
      u1.order.items.length = u.order.items.length + 1) := by
  simp only [order_regular_item]
  repeat' split
  all_goals first
  | exact Or.inl ⟨_, rfl⟩
  | exact Or.inr ⟨_, _, rfl, by simp [OrderState.add]⟩

theorem receipt_entry_blank (all : List MenuItem) (item : OrderItem)
    (hids : ∀ i ∈ item.lookup_ids, find_items_by_id all i none = []) :
    receipt_entry all item = ⟨item.order_id, "", [], 0⟩ := by
  cases item with
  | regular oid iid isz =>
    have h0 : find_items_by_id all iid none = [] :=
      hids iid (by simp [OrderItem.lookup_ids])
    have h1 := find_size_nil all iid isz h0
    simp [receipt_entry, h0, h1, OrderItem.order_id]
  | combo oid mid did dsz sc =>
    have hm : find_items_by_id all mid none = [] :=
      hids mid (by simp [OrderItem.lookup_ids])
    have hd : find_items_by_id all did none = [] :=
      hids did (by simp [OrderItem.lookup_ids])
    have hds := find_size_nil all did dsz hd
    cases sc with
    | none => simp [receipt_entry, comboEntry, hm, hd, hds, truthy, OrderItem.order_id]
    | some s =>
      have hs : find_items_by_id all s none = [] :=
        hids s (by simp [OrderItem.lookup_ids])
      simp [receipt_entry, comboEntry, hm, hd, hds, hs, truthy, OrderItem.order_id]
  | happy oid mid did dsz sc =>
    have hm : find_items_by_id all mid none = [] :=
      hids mid (by simp [OrderItem.lookup_ids])
    have hd : find_items_by_id all did none = [] :=
      hids did (by simp [OrderItem.lookup_ids])
    have hds := find_size_nil all did dsz hd
    cases sc with
    | none => simp [receipt_entry, comboEntry, hm, hd, hds, truthy, OrderItem.order_id]
    | some s =>
      have hs : find_items_by_id all s none = [] :=
        hids s (by simp [OrderItem.lookup_ids])
      simp [receipt_entry, comboEntry, hm, hd, hds, hs, truthy, OrderItem.order_id]

/-- C7: `update_receipt_file` emits exactly one entry per order line
item (the entry list is the pointwise resolution of the order), the
document total is the sum of the entry prices, and a line item none of
whose ids resolves in the combined menu contributes an entry with name
"", no sub-items, and price 0 instead of failing. -/
theorem update_receipt_entries_and_total (u : Userdata) :
    (update_receipt_file u).items =
      u.order.items.map (fun p => receipt_entry (u.combo_items ++ u.happy_items ++
        u.regular_items ++ u.drink_items ++ u.sauce_items) p.2) ∧
    (update_receipt_file u).items.length = u.order.items.length ∧
    (update_receipt_file u).total_price =
      ((update_receipt_file u).items.map (fun e => e.price)).sum ∧
    ∀ item : OrderItem,
      (∀ i ∈ item.lookup_ids,
        find_items_by_id (u.combo_items ++ u.happy_items ++
          u.regular_items ++ u.drink_items ++ u.sauce_items) i none = []) →
      receipt_entry (u.combo_items ++ u.happy_items ++
        u.regular_items ++ u.drink_items ++ u.sauce_items) item =
        ⟨item.order_id, "", [], 0⟩ := by
  have hf := receipt_foldl (u.combo_items ++ u.happy_items ++
    u.regular_items ++ u.drink_items ++ u.sauce_items) u.order.items ([], 0)
  have hitems : (update_receipt_file u).items =
      u.order.items.map (fun p => receipt_entry (u.combo_items ++ u.happy_items ++
        u.regular_items ++ u.drink_items ++ u.sauce_items) p.2) := by
    simp only [update_receipt_file]
    rw [hf]
    rfl
  have htotal : (update_receipt_file u).total_price =
      0 + (u.order.items.map (fun p => (receipt_entry (u.combo_items ++ u.happy_items ++
        u.regular_items ++ u.drink_items ++ u.sauce_items) p.2).price)).sum := by
    simp only [update_receipt_file]
    rw [hf]
  refine ⟨hitems, by rw [hitems]; simp, ?_, ?_⟩
  · rw [htotal, hitems, List.map_map, zero_add]
    rfl
  · intro item hids
    exact receipt_entry_blank (u.combo_items ++ u.happy_items ++
      u.regular_items ++ u.drink_items ++ u.sauce_items) item hids

/-- Witness for `update_receipt_entries_and_total`: the initial userdata
and a regular line item whose id "ghost" resolves to nothing. -/
theorem update_receipt_entries_and_total_witness :
    (update_receipt_file new_userdata).items =
      new_userdata.order.items.map (fun p => receipt_entry (new_userdata.combo_items ++
        new_userdata.happy_items ++ new_userdata.regular_items ++ new_userdata.drink_items ++
        new_userdata.sauce_items) p.2) ∧
    receipt_entry (new_userdata.combo_items ++ new_userdata.happy_items ++
      new_userdata.regular_items ++ new_userdata.drink_items ++ new_userdata.sauce_items)
      (OrderItem.regular "x1" "ghost" none) =
      ⟨(OrderItem.regular "x1" "ghost" none).order_id, "", [], 0⟩ :=
  ⟨(update_receipt_entries_and_total new_userdata).1,
   (update_receipt_entries_and_total new_userdata).2.2.2
     (OrderItem.regular "x1" "ghost" none) (by decide)⟩

/-- C8: passing the literal string "null" for an optional size or sauce
field of any ordering tool yields exactly the same outcome (result,
userdata, and receipt writes) as passing the field as absent. -/
theorem null_sentinel_equivalence (u : Userdata) (meal_id drink_id item_id : String)
    (dsz sauce_id : Option String) :
    order_combo_meal u meal_id drink_id (some "null") sauce_id =
      order_combo_meal u meal_id drink_id none sauce_id ∧
    order_combo_meal u meal_id drink_id dsz (some "null") =
      order_combo_meal u meal_id drink_id dsz none ∧
    order_happy_meal u meal_id drink_id (some "null") sauce_id =
      order_happy_meal u meal_id drink_id none sauce_id ∧
    order_happy_meal u meal_id drink_id dsz (some "null") =
      order_happy_meal u meal_id drink_id dsz none ∧
    order_regular_item u item_id (some "null") = order_regular_item u item_id none := by
  refine ⟨?_, ?_, ?_, ?_, ?_⟩ <;>
    simp [order_combo_meal, order_happy_meal, order_regular_item]

/-- C10: each ordering tool is all-or-nothing: every validation error
leaves the userdata untouched and writes no receipt, and every success
adds exactly one line item and performs exactly one receipt write. -/
theorem order_tools_all_or_nothing (u : Userdata) (meal_id drink_id item_id : String)
    (drink_size sauce_id size : Option String) :
    AllOrNothing u (order_combo_meal u meal_id drink_id drink_size sauce_id) ∧
    AllOrNothing u (order_happy_meal u meal_id drink_id drink_size sauce_id) ∧
    AllOrNothing u (order_regular_item u item_id size) := by
  refine ⟨?_, ?_, ?_⟩
  · rcases combo_shape u meal_id drink_id drink_size sauce_id with ⟨e', hq⟩ | ⟨it, u1, hq, hlen⟩
    · refine ⟨?_, ?_⟩
      · intro e he
        rw [hq]
        exact ⟨rfl, rfl⟩
      · intro it hit
        rw [hq] at hit
        simp at hit
    · refine ⟨?_, ?_⟩
      · intro e he
        rw [hq] at he
        simp at he
      · intro it2 hit
        rw [hq]
        exact ⟨hlen, rfl⟩
  · rcases happy_shape u meal_id drink_id drink_size sauce_id with ⟨e', hq⟩ | ⟨it, u1, hq, hlen⟩
    · refine ⟨?_, ?_⟩
      · intro e he
        rw [hq]
        exact ⟨rfl, rfl⟩
      · intro it hit
        rw [hq] at hit
        simp at hit
    · refine ⟨?_, ?_⟩
      · intro e he
        rw [hq] at he
        simp at he
      · intro it2 hit
        rw [hq]
        exact ⟨hlen, rfl⟩
  · rcases regular_shape u item_id size with ⟨e', hq⟩ | ⟨it, u1, hq, hlen⟩
    · refine ⟨?_, ?_⟩
      · intro e he
        rw [hq]
        exact ⟨rfl, rfl⟩
      · intro it hit
        rw [hq] at hit
        simp at hit
    · refine ⟨?_, ?_⟩
      · intro e he
        rw [hq] at he
        simp at he
      · intro it2 hit
        rw [hq]
        exact ⟨hlen, rfl⟩

/-- Witness for `order_tools_all_or_nothing`: a failing call (unknown
meal) changes nothing, and a succeeding call adds one item and writes
one receipt. -/
theorem order_tools_all_or_nothing_witness :
    ((order_combo_meal new_userdata "ghost_meal" "thums_up" (some "M") none).userdata =
        new_userdata ∧
      (order_combo_meal new_userdata "ghost_meal" "thums_up" (some "M") none).writes = []) ∧
    ((order_regular_item new_userdata "vada_pav" none).userdata.order.items.length =
        new_userdata.order.items.length + 1 ∧
      (order_regular_item new_userdata "vada_pav" none).writes =
        [update_receipt_file (order_regular_item new_userdata "vada_pav" none).userdata]) :=
  ⟨(order_tools_all_or_nothing new_userdata "ghost_meal" "thums_up" "vada_pav"
      (some "M") none none).1.1 (ToolErr.mealNotFound "ghost_meal") (by decide),
   (order_tools_all_or_nothing new_userdata "ghost_meal" "thums_up" "vada_pav"
      (some "M") none none).2.2.2
     (OrderItem.regular "order_0" "vada_pav" none) (by decide)⟩
